import Mathlib

/-!
Shallow embedding of the Karaoke-bar Telegram bot (app/bot/bot.py,
app/bot/models.py, app/models.py): the data model, the registration
guard, the conversation handlers, the order lifecycle and the admin
notification fan-out, together with theorems checking the
specification's claims against these definitions.

Timestamps are modelled as natural numbers counting seconds; message
texts that only matter as signals are modelled by the `Reply`
inductive, while the admin fan-out message (whose contents a claim
inspects) is modelled as an actual string.
-/

namespace Karaoke

/-- Order status: the `status` column of `orders` in models.py
(`pending`, `completed`, `cancelled`). -/
inductive OrderStatus
  | pending
  | completed
  | cancelled
deriving DecidableEq

/-- A row of the `users` table (models.py, class `User`). -/
structure User where
  telegram_id : Nat
  username : Option String := none
  first_name : Option String := none
  last_name : Option String := none
  display_name : Option String := none
  table_number : Option String := none
  is_registered : Bool := false
  registered_at : Option Nat := none
deriving DecidableEq

/-- A row of the `orders` table (models.py, class `Order`). -/
structure Order where
  id : Nat
  user_id : Nat
  song_id : Nat
  song_title : String
  song_artist : String
  has_backing : Bool
  status : OrderStatus
  ordered_at : Nat
  completed_at : Option Nat
deriving DecidableEq

/-- A catalog song (app/models.py, class `Song`), as consumed by bot.py. -/
structure Song where
  id : Nat
  title : String
  artist : String
  has_backing : Bool := false
deriving DecidableEq

/-- The persistent store: the three entity collections.  Admins are
kept by telegram id.  `nextOrderId` models the autoincrement primary
key of the `orders` table. -/
structure Store where
  users : List User
  admins : List Nat
  orders : List Order
  nextOrderId : Nat
deriving DecidableEq

/-- The aiogram FSM states (`UserState` and `SearchState` in bot.py). -/
inductive FsmState
  | waiting_for_name
  | waiting_for_table
  | ready_to_search
  | waiting_for_admin_password
  | waiting_for_artist
  | waiting_for_title
  | waiting_for_free_search
deriving DecidableEq

/-- The per-actor conversation session: the aiogram `FSMContext` state
plus its data dictionary (which bot.py uses only for `search_results`). -/
structure ConvSession where
  fsm : Option FsmState := none
  search_results : List Song := []
deriving DecidableEq

/-- Models `FSMContext.clear()`: state set to `None` and data emptied. -/
def ConvSession.clear : ConvSession := { fsm := none, search_results := [] }

/-- The song-list keyboard built by `create_song_buttons`: the per-song
buttons (the slice of the results actually shown), the presence of the
previous/next navigation buttons, and the page indicator text
`page+1 / totalPages`.  The exit button is always present. -/
structure SongKeyboard where
  items : List Song
  hasPrev : Bool
  hasNext : Bool
  pageLabel : Nat × Int
deriving DecidableEq

/-- Outbound messages, abstracted to their identity as signals.  Two
different wordings in bot.py get two different constructors. -/
inductive Reply
  | adminPanel
  | welcomeNamePrompt
  | repairNamePrompt
  | tablePrompt
  | thanksTablePrompt (nm : String)
  | registeredSearchMenu
  | searchMenu
  | greetingSearchMenu
  | notRegistered
  | registrationExpired
  | resetDone
  | resetUnavailableForAdmin
  | resetNotRegistered
  | genericError
  | orderSent
  | orderError
  | forbiddenAdminsOnly
  | orderNotFound (id : Nat)
  | alreadyResolved (id : Nat) (st : OrderStatus)
  | resolvedOk (id : Nat) (st : OrderStatus)
  | notifyUserFailed
  | artistNotFound
  | songListShown (kb : SongKeyboard)
  | welcomePleaseStart
  | wrongPassword
  | adminAdded
  | alreadyAdmin
deriving DecidableEq

/-- Classification of replies into the prompt kinds the spec's
registration sequence speaks about. -/
inductive PromptKind
  | namePrompt
  | tablePrompt
  | searchMenu
  | other
deriving DecidableEq

/-- Which registration prompt a reply is, if any. -/
def Reply.kind : Reply → PromptKind
  | .welcomeNamePrompt => .namePrompt
  | .repairNamePrompt => .namePrompt
  | .tablePrompt => .tablePrompt
  | .thanksTablePrompt _ => .tablePrompt
  | .registeredSearchMenu => .searchMenu
  | .searchMenu => .searchMenu
  | .greetingSearchMenu => .searchMenu
  | _ => .other

/-- Python truthiness test `not user.table_number`: `None` and the
empty string are falsy. -/
def strFalsy : Option String → Bool
  | none => true
  | some s => s.isEmpty

/-- Embeds `session.query(User).filter_by(telegram_id=uid).first()`. -/
def findUser (s : Store) (uid : Nat) : Option User :=
  s.users.find? (fun u => u.telegram_id == uid)

/-- Embeds `session.query(Admin).filter_by(telegram_id=uid).first()` as
a membership test. -/
def isAdmin (s : Store) (uid : Nat) : Bool :=
  s.admins.contains uid

/-- Embeds `session.query(Order).filter_by(id=oid).first()`. -/
def findOrder (s : Store) (oid : Nat) : Option Order :=
  s.orders.find? (fun o => o.id == oid)

/-- Mutate the first row matching a predicate and commit: the SQLAlchemy
pattern `row = query.filter_by(...).first(); mutate(row); commit()`. -/
def updateFirstBy (p : α → Bool) (f : α → α) : List α → List α
  | [] => []
  | x :: xs => if p x then f x :: xs else x :: updateFirstBy p f xs

/-- Update the user row with the given telegram id. -/
def updateUser (s : Store) (uid : Nat) (f : User → User) : Store :=
  { s with users := updateFirstBy (fun u => u.telegram_id == uid) f s.users }

/-- 16 hours in seconds (`timedelta(hours=16)`). -/
def EXPIRY_SECONDS : Nat := 16 * 3600

/-- Embeds `check_registration_expiry` (bot.py:51).  Given the fetched user
row: if `registered_at` is unset, succeed with no effect; if the
registration is older than 16 hours, clear `is_registered`,
`display_name`, `table_number`, `registered_at`, clear the FSM session
and report expiry (returning `false`); otherwise succeed with no
effect. -/
def check_registration_expiry (s : Store) (sess : ConvSession) (u : User) (now : Nat) :
    Store × ConvSession × List Reply × Bool :=
  match u.registered_at with
  | none => (s, sess, [], true)
  | some t =>
    if now > t + EXPIRY_SECONDS then
      ( updateUser s u.telegram_id (fun v =>
          { v with is_registered := false, display_name := none,
                   table_number := none, registered_at := none }),
        ConvSession.clear,
        [Reply.registrationExpired], false )
    else (s, sess, [], true)

/-- Embeds the `require_registration` decorator (bot.py:91): admins pass
through; a missing or unregistered user is turned away; a registered
user is run through the expiry check, and the wrapped handler runs only
when that check passes. -/
def require_registration (core : Store → ConvSession → Store × ConvSession × List Reply)
    (s : Store) (sess : ConvSession) (uid : Nat) (now : Nat) :
    Store × ConvSession × List Reply :=
  if isAdmin s uid then core s sess
  else
    match findUser s uid with
    | none => (s, sess, [Reply.notRegistered])
    | some u =>
      if u.is_registered = false then (s, sess, [Reply.notRegistered])
      else
        let r := check_registration_expiry s sess u now
        if r.2.2.2 then core r.1 r.2.1 else (r.1, r.2.1, r.2.2.1)

/-- Embeds `check_registration_state` (bot.py:169): re-derive the conversation
position from the persisted user row; returns `true` when fully
registered (name and table present), in which case it sends nothing. -/
def check_registration_state (sess : ConvSession) (u : User) :
    ConvSession × List Reply × Bool :=
  if u.is_registered = false then
    ({ sess with fsm := some .waiting_for_name }, [Reply.repairNamePrompt], false)
  else if strFalsy u.table_number then
    ({ sess with fsm := some .waiting_for_table }, [Reply.tablePrompt], false)
  else
    (sess, [], true)

/-- Embeds `start_command` (bot.py:293): admins get the admin panel; an unseen
actor gets a fresh unregistered `User` row and the welcome name prompt;
an existing user goes through `check_registration_state` (whose `true`
branch sends nothing). -/
def start_command (s : Store) (sess : ConvSession) (uid : Nat) (uname : Option String) :
    Store × ConvSession × List Reply :=
  if isAdmin s uid then (s, sess, [Reply.adminPanel])
  else
    match findUser s uid with
    | none =>
      let u : User := { telegram_id := uid, username := uname, is_registered := false }
      ({ s with users := s.users ++ [u] },
       { sess with fsm := some .waiting_for_name },
       [Reply.welcomeNamePrompt])
    | some u =>
      let r := check_registration_state sess u
      (s, r.1, r.2.1)

/-- Embeds `process_name` (bot.py:529): store the display name, mark the user
registered (without touching `registered_at`) and prompt for the table. -/
def process_name (s : Store) (sess : ConvSession) (uid : Nat) (text : String) :
    Store × ConvSession × List Reply :=
  match findUser s uid with
  | none => (s, sess, [Reply.genericError])
  | some _ =>
    (updateUser s uid (fun u => { u with display_name := some text, is_registered := true }),
     { sess with fsm := some .waiting_for_table },
     [Reply.thanksTablePrompt text])

/-- Embeds `process_table` (bot.py:561): store the table number, set
`registered_at := now` and show the search-type menu. -/
def process_table (s : Store) (sess : ConvSession) (uid : Nat) (text : String) (now : Nat) :
    Store × ConvSession × List Reply :=
  match findUser s uid with
  | some _ =>
    (updateUser s uid (fun u =>
        { u with table_number := some text, is_registered := true, registered_at := some now }),
     { sess with fsm := some .ready_to_search },
     [Reply.registeredSearchMenu])
  | none => (s, ConvSession.clear, [Reply.genericError])

/-- The body of `reset_command` (bot.py:414), inside its decorator:
admins are refused; an existing user has `display_name`,
`table_number` and `is_registered` cleared (NOT `registered_at`), then
the FSM state and data are cleared. -/
def reset_core (s : Store) (sess : ConvSession) (uid : Nat) :
    Store × ConvSession × List Reply :=
  if isAdmin s uid then (s, sess, [Reply.resetUnavailableForAdmin])
  else
    match findUser s uid with
    | some _ =>
      (updateUser s uid (fun u =>
          { u with display_name := none, table_number := none, is_registered := false }),
       ConvSession.clear,
       [Reply.resetDone])
    | none => (s, sess, [Reply.resetNotRegistered])

/-- Embeds `reset_command`: `require_registration` wrapped around `reset_core`. -/
def reset_command (s : Store) (sess : ConvSession) (uid : Nat) (now : Nat) :
    Store × ConvSession × List Reply :=
  require_registration (fun s1 sess1 => reset_core s1 sess1 uid) s sess uid now

/-- Embeds `process_admin_password` (bot.py:499): on the correct password,
enroll the actor as admin unless already enrolled; always clear the
FSM state afterwards. -/
def process_admin_password (s : Store) (_sess : ConvSession) (uid : Nat)
    (text pw : String) : Store × ConvSession × List Reply :=
  if text = pw then
    if isAdmin s uid then (s, ConvSession.clear, [Reply.alreadyAdmin])
    else ({ s with admins := s.admins ++ [uid] }, ConvSession.clear, [Reply.adminAdded])
  else (s, ConvSession.clear, [Reply.wrongPassword])

/-- Embeds `handle_unknown_message` (bot.py:1241): the catch-all handler,
which repairs the conversation position from the persisted user row
when no FSM state is set. -/
def handle_unknown_message (s : Store) (sess : ConvSession) (uid : Nat) :
    Store × ConvSession × List Reply :=
  if isAdmin s uid then (s, sess, [Reply.adminPanel])
  else
    match findUser s uid with
    | none => (s, sess, [Reply.welcomePleaseStart])
    | some u =>
      match sess.fsm with
      | some _ => (s, sess, [])
      | none =>
        if u.is_registered = false then
          (s, { sess with fsm := some .waiting_for_name }, [Reply.repairNamePrompt])
        else if strFalsy u.table_number then
          (s, { sess with fsm := some .waiting_for_table }, [Reply.tablePrompt])
        else
          (s, { sess with fsm := some .ready_to_search }, [Reply.greetingSearchMenu])

/-- Embeds `create_song_buttons` (bot.py:209): slice `songs[page*10 : page*10+10]`,
previous button iff `page > 0`, next button iff `page*10+10 < len(songs)`,
page label `page+1 / (len(songs)-1)//10 + 1`. -/
def create_song_buttons (songs : List Song) (page : Nat) : SongKeyboard :=
  let start_idx := page * 10
  let end_idx := start_idx + 10
  { items := (songs.drop start_idx).take 10,
    hasPrev := decide (page > 0),
    hasNext := decide (end_idx < songs.length),
    pageLabel := (page + 1, Int.fdiv ((songs.length : Int) - 1) 10 + 1) }

/-- Python `str.lower()`, character by character (like Lean's own
`String.toLower`, this maps ASCII letters; it is written over the
char list so that it evaluates inside the kernel). -/
def pyLower (s : String) : String := ⟨s.data.map Char.toLower⟩

/-- Python `str.strip()`: drop leading and trailing whitespace. -/
def pyStrip (s : String) : String :=
  ⟨((s.data.dropWhile Char.isWhitespace).reverse.dropWhile Char.isWhitespace).reverse⟩

/-- Whitespace-separated words of a char list (auxiliary for
Python `str.split()` with no argument). -/
def wordsAux : List Char → List Char → List (List Char)
  | [], cur => if cur.isEmpty then [] else [cur.reverse]
  | c :: cs, cur =>
    if c.isWhitespace then
      if cur.isEmpty then wordsAux cs [] else cur.reverse :: wordsAux cs []
    else wordsAux cs (c :: cur)

/-- Python `str.split()` with no argument: split on whitespace runs,
dropping empty pieces. -/
def pySplit (s : String) : List String :=
  (wordsAux s.data []).map String.mk

/-- Embeds `get_name_variations` (bot.py:615): lower-case and strip the input;
always keep the normalized original; for multi-word inputs add the
reversed word order; for more than two words add every rotation; then
remove duplicates (`list(set(...))`, modelled as first-occurrence
deduplication since Python's set order is unspecified). -/
def get_name_variations (name : String) : List String :=
  let nm := pyStrip (pyLower name)
  let parts := pySplit nm
  let variations := [nm]
  let variations :=
    if parts.length > 1 then
      let variations := variations ++ [String.intercalate " " parts.reverse]
      if parts.length > 2 then
        variations ++ (List.range parts.length).map
          (fun i => String.intercalate " " (parts.drop i ++ parts.take i))
      else variations
    else variations
  variations.dedup

/-- Models the dict comprehension keyed by song id in bot.py:684:
insertion keeps the first position of an id but the latest song seen
for it; `.values()` yields them in insertion order. -/
def insertById (acc : List Song) (song : Song) : List Song :=
  if acc.any (fun t => t.id == song.id) then
    acc.map (fun t => if t.id == song.id then song else t)
  else acc ++ [song]

/-- Deduplicate a song list by id, dict-comprehension style. -/
def dedupById (l : List Song) : List Song := l.foldl insertById []

/-- The search core of `process_artist_search` (bot.py:664): query the
catalog once per name variation, concatenate the result lists, then
deduplicate by song id.  The catalog client is abstracted as a
function from query to result list. -/
def process_artist_search (searchByArtist : String → List Song) (text : String) :
    List Song :=
  dedupById ((get_name_variations text).flatMap searchByArtist)

/-- The session/rendering part of `process_artist_search`: on an empty
combined result, report not-found and leave the session alone; on a
non-empty result, store it as `search_results` and render page 0. -/
def process_artist_search_handler (searchByArtist : String → List Song)
    (sess : ConvSession) (text : String) : ConvSession × List Reply :=
  let songs := process_artist_search searchByArtist text
  if songs.isEmpty then (sess, [Reply.artistNotFound])
  else ({ sess with search_results := songs },
        [Reply.songListShown (create_song_buttons songs 0)])

/-- Embeds `notify_admins` (bot.py:880): iterate over all admin rows sending
the per-admin message; the whole loop sits in one `try`, so the first
failed send raises out of the loop and the remaining admins are never
attempted (the exception is then logged and swallowed).  `send a`
tells whether delivery to admin `a` succeeds; the returned list is the
sequence of admins to whom delivery was attempted. -/
def notify_admins (admins : List Nat) (send : Nat → Bool) : List Nat :=
  match admins with
  | [] => []
  | a :: rest => if send a then a :: notify_admins rest send else [a]

/-- The per-admin message built inside `notify_admins`: the rendered
order summary followed by the `/complete_<id>` and `/cancel_<id>`
control commands. -/
def adminFullMessage (order_info : String) (order_id : Nat) : String :=
  order_info ++ "\n\nДействия с заказом:\n" ++ "/complete_" ++ toString order_id ++
    " - отметить как исполненный\n" ++ "/cancel_" ++ toString order_id ++ " - отменить заказ"

/-- The order summary rendered in `process_order` (bot.py:821): song,
artist, song id, accompaniment flag and the client's registration
fields. -/
def renderOrderInfo (song : Song) (u : User) (o : Order) : String :=
  "Новый заказ песни! (ID: " ++ toString o.id ++ ")\n\n" ++
    "Песня: " ++ song.title ++ "\n" ++
    "Исполнитель: " ++ song.artist ++ "\n" ++
    "ID песни: " ++ toString song.id ++ "\n" ++
    "Тип: " ++ (if song.has_backing then "С бэк-треком" else "Без бэк-трека") ++ "\n\n" ++
    "Имя: " ++ (u.display_name.getD "") ++ "\n" ++
    "Столик: " ++ (u.table_number.getD "")

/-- The outcome of `process_order`: the store and session after the
event, the replies to the ordering user, the admins to whom delivery
of the fan-out message was attempted and that per-admin message. -/
structure OrderOut where
  store : Store
  convSession : ConvSession
  replies : List Reply
  attempted : List Nat
  adminMessage : Option String
deriving DecidableEq

/-- Embeds `process_order` (bot.py:795): look up the user row and the catalog
item; if both exist, persist one new `pending` order snapshotting the
song's title, artist and accompaniment flag, fan the rendered summary
out to the admins, confirm to the user and return to the search menu;
otherwise reply with an error and write nothing. -/
def process_order (catalog : List Song) (send : Nat → Bool)
    (s : Store) (sess : ConvSession) (uid : Nat) (song_id : Nat) (now : Nat) : OrderOut :=
  let user? := findUser s uid
  let song? := catalog.find? (fun song => song.id == song_id)
  match user?, song? with
  | some u, some song =>
    let o : Order :=
      { id := s.nextOrderId, user_id := u.telegram_id, song_id := song.id,
        song_title := song.title, song_artist := song.artist,
        has_backing := song.has_backing, status := .pending,
        ordered_at := now, completed_at := none }
    let s1 : Store := { s with orders := s.orders ++ [o], nextOrderId := s.nextOrderId + 1 }
    { store := s1,
      convSession := { sess with fsm := some .ready_to_search },
      replies := [Reply.orderSent],
      attempted := notify_admins s1.admins send,
      adminMessage := some (adminFullMessage (renderOrderInfo song u o) o.id) }
  | _, _ =>
    { store := s, convSession := sess, replies := [Reply.orderError],
      attempted := [], adminMessage := none }

/-- The resolve commands `/complete_<id>` and `/cancel_<id>`. -/
inductive ResolveCmd
  | complete (id : Nat)
  | cancel (id : Nat)
deriving DecidableEq

/-- The order id carried by a resolve command. -/
def ResolveCmd.orderId : ResolveCmd → Nat
  | .complete i => i
  | .cancel i => i

/-- Embeds the outcome pick: completed for /complete, cancelled for /cancel. -/
def ResolveCmd.outcome : ResolveCmd → OrderStatus
  | .complete _ => .completed
  | .cancel _ => .cancelled

/-- Embeds `handle_order_action` (bot.py:1065), resolve branch: non-admins are
refused; an unknown order id is reported; an order no longer `pending`
is reported with its current status and nothing is written; otherwise
the order's status becomes the requested outcome, `completed_at` is set
to now, the change is committed, the admin gets a confirmation and the
order's owner gets a best-effort notification (a failed send adds a
warning reply but the resolution stands). -/
def handle_order_action (s : Store) (uid : Nat) (cmd : ResolveCmd) (now : Nat)
    (send : Nat → Bool) : Store × List Reply :=
  if isAdmin s uid = false then (s, [Reply.forbiddenAdminsOnly])
  else
    match findOrder s cmd.orderId with
    | none => (s, [Reply.orderNotFound cmd.orderId])
    | some o =>
      if o.status ≠ OrderStatus.pending then
        (s, [Reply.alreadyResolved cmd.orderId o.status])
      else
        let s1 : Store :=
          { s with orders := (updateFirstBy (fun x => x.id == cmd.orderId)
              (fun x => { x with status := cmd.outcome, completed_at := some now }) s.orders) }
        (s1, [Reply.resolvedOk cmd.orderId cmd.outcome] ++
              (if send o.user_id then [] else [Reply.notifyUserFailed]))

/-- The empty store the system starts from. -/
def initStore : Store := { users := [], admins := [], orders := [], nextOrderId := 1 }

/-- One store transition performed by any modelled operation that can
touch the store.  Session-only handlers (searches, pagination,
keyboards) never write the store and need no constructor. -/
inductive Step : Store → Store → Prop
  | start : ∀ s sess uid uname, Step s (start_command s sess uid uname).1
  | name : ∀ s sess uid text, Step s (process_name s sess uid text).1
  | table : ∀ s sess uid text now, Step s (process_table s sess uid text now).1
  | reset : ∀ s sess uid, Step s (reset_core s sess uid).1
  | expiry : ∀ s sess u now, Step s (check_registration_expiry s sess u now).1
  | adminPw : ∀ s sess uid text pw, Step s (process_admin_password s sess uid text pw).1
  | unknown : ∀ s sess uid, Step s (handle_unknown_message s sess uid).1
  | order : ∀ catalog send s sess uid sid now,
      Step s (process_order catalog send s sess uid sid now).store
  | resolve : ∀ s uid cmd now send, Step s (handle_order_action s uid cmd now send).1

/-- The stores reachable from the empty store by modelled operations. -/
inductive Reach : Store → Prop
  | init : Reach initStore
  | step : ∀ s s2, Reach s → Step s s2 → Reach s2

/-- How a single operation may evolve one order row: either untouched,
or resolved out of `pending` into a terminal status. -/
def statusEvolves (o o2 : Order) : Prop :=
  o2 = o ∨ (o.status = OrderStatus.pending ∧
    (o2.status = OrderStatus.completed ∨ o2.status = OrderStatus.cancelled))

/-! ### Helper lemmas -/

theorem updateFirstBy_length (p : α → Bool) (f : α → α) :
    ∀ l : List α, (updateFirstBy p f l).length = l.length
  | [] => rfl
  | x :: xs => by
    by_cases h : p x = true
    · simp [updateFirstBy, h]
    · simp [updateFirstBy, h, updateFirstBy_length p f xs]

theorem find?_updateFirstBy (p : α → Bool) (f : α → α) (hp : ∀ x, p (f x) = p x) :
    ∀ l : List α, (updateFirstBy p f l).find? p = (l.find? p).map f
  | [] => rfl
  | x :: xs => by
    by_cases h : p x = true
    · simp [updateFirstBy, h, List.find?_cons_of_pos, hp]
    · rw [updateFirstBy, if_neg h, List.find?_cons_of_neg _ h, List.find?_cons_of_neg _ h]
      exact find?_updateFirstBy p f hp xs

theorem mem_updateFirstBy (p : α → Bool) (f : α → α) :
    ∀ l : List α, ∀ x ∈ updateFirstBy p f l, x ∈ l ∨ ∃ y, y ∈ l ∧ p y = true ∧ x = f y
  | [], x, hx => by cases hx
  | a :: xs, x, hx => by
    by_cases h : p a = true
    · rw [updateFirstBy, if_pos h, List.mem_cons] at hx
      rcases hx with hx | hx
      · exact Or.inr ⟨a, List.mem_cons_self a xs, h, hx⟩
      · exact Or.inl (List.mem_cons_of_mem a hx)
    · rw [updateFirstBy, if_neg h, List.mem_cons] at hx
      rcases hx with hx | hx
      · exact Or.inl (hx ▸ List.mem_cons_self a xs)
      · rcases mem_updateFirstBy p f xs x hx with h1 | ⟨y, hy, hpy, hxy⟩
        · exact Or.inl (List.mem_cons_of_mem a h1)
        · exact Or.inr ⟨y, List.mem_cons_of_mem a hy, hpy, hxy⟩

theorem forall₂_updateFirstBy (R : α → α → Prop) (p : α → Bool) (f : α → α)
    (hrefl : ∀ x, R x x) :
    ∀ l : List α, (∀ x, l.find? p = some x → R x (f x)) →
      List.Forall₂ R l (updateFirstBy p f l)
  | [], _ => List.Forall₂.nil
  | a :: xs, hf => by
    by_cases h : p a = true
    · simp only [updateFirstBy, h, if_true]
      exact List.Forall₂.cons
        (hf a (List.find?_cons_of_pos _ h))
        (List.forall₂_same.mpr fun x _ => hrefl x)
    · simp only [updateFirstBy, h, if_false]
      exact List.Forall₂.cons (hrefl a)
        (forall₂_updateFirstBy R p f hrefl xs
          (fun x hx => hf x (by rw [List.find?_cons_of_neg _ (by simp [h])]; exact hx)))

theorem findUser_updateUser (s : Store) (uid : Nat) (f : User → User)
    (hf : ∀ u, (f u).telegram_id = u.telegram_id) :
    findUser (updateUser s uid f) uid = (findUser s uid).map f := by
  unfold findUser updateUser
  exact find?_updateFirstBy _ f (fun u => by simp [hf u]) s.users

theorem isAdmin_updateUser (s : Store) (uid v : Nat) (f : User → User) :
    isAdmin (updateUser s uid f) v = isAdmin s v := rfl

theorem findUser_after_table (s : Store) (uid : Nat) (tbl : String) (now : Nat) :
    findUser (updateUser s uid (fun v =>
        { v with table_number := some tbl, is_registered := true,
                 registered_at := some now })) uid
      = (findUser s uid).map (fun v =>
        { v with table_number := some tbl, is_registered := true,
                 registered_at := some now }) :=
  findUser_updateUser s uid _ (fun _ => rfl)

theorem findUser_after_name (s : Store) (uid : Nat) (nm : String) :
    findUser (updateUser s uid (fun v =>
        { v with display_name := some nm, is_registered := true })) uid
      = (findUser s uid).map (fun v =>
        { v with display_name := some nm, is_registered := true }) :=
  findUser_updateUser s uid _ (fun _ => rfl)

theorem findUser_after_reset (s : Store) (uid : Nat) :
    findUser (updateUser s uid (fun v =>
        { v with display_name := none, table_number := none, is_registered := false })) uid
      = (findUser s uid).map (fun v =>
        { v with display_name := none, table_number := none, is_registered := false }) :=
  findUser_updateUser s uid _ (fun _ => rfl)

theorem findUser_after_expiry (s : Store) (uid : Nat) :
    findUser (updateUser s uid (fun v =>
        { v with is_registered := false, display_name := none,
                 table_number := none, registered_at := none })) uid
      = (findUser s uid).map (fun v =>
        { v with is_registered := false, display_name := none,
                 table_number := none, registered_at := none }) :=
  findUser_updateUser s uid _ (fun _ => rfl)

theorem findOrder_update (orders : List Order) (oid : Nat) (st : OrderStatus) (ts : Nat) :
    List.find? (fun x => x.id == oid)
      (updateFirstBy (fun x => x.id == oid)
        (fun x => { x with status := st, completed_at := some ts }) orders)
      = (List.find? (fun x => x.id == oid) orders).map
          (fun x => { x with status := st, completed_at := some ts }) :=
  find?_updateFirstBy (fun x => x.id == oid)
    (fun x => { x with status := st, completed_at := some ts }) (fun _ => rfl) orders

theorem updateUser_orders (s : Store) (uid : Nat) (f : User → User) :
    (updateUser s uid f).orders = s.orders := rfl

theorem start_command_orders (s : Store) (sess : ConvSession) (uid : Nat)
    (uname : Option String) : (start_command s sess uid uname).1.orders = s.orders := by
  unfold start_command
  by_cases h : isAdmin s uid
  · simp [h]
  · cases hu : findUser s uid <;> simp [h, hu]

theorem process_name_orders (s : Store) (sess : ConvSession) (uid : Nat) (text : String) :
    (process_name s sess uid text).1.orders = s.orders := by
  unfold process_name
  cases hu : findUser s uid <;> simp [hu, updateUser_orders]

theorem process_table_orders (s : Store) (sess : ConvSession) (uid : Nat) (text : String)
    (now : Nat) : (process_table s sess uid text now).1.orders = s.orders := by
  unfold process_table
  cases hu : findUser s uid <;> simp [hu, updateUser_orders]

theorem reset_core_orders (s : Store) (sess : ConvSession) (uid : Nat) :
    (reset_core s sess uid).1.orders = s.orders := by
  unfold reset_core
  by_cases h : isAdmin s uid
  · simp [h]
  · cases hu : findUser s uid <;> simp [h, hu, updateUser_orders]

theorem check_registration_expiry_orders (s : Store) (sess : ConvSession) (u : User)
    (now : Nat) : (check_registration_expiry s sess u now).1.orders = s.orders := by
  unfold check_registration_expiry
  cases ht : u.registered_at with
  | none => rfl
  | some t =>
    by_cases h : now > t + EXPIRY_SECONDS
    · simp [h, updateUser_orders]
    · simp [h]

theorem process_admin_password_orders (s : Store) (sess : ConvSession) (uid : Nat)
    (text pw : String) : (process_admin_password s sess uid text pw).1.orders = s.orders := by
  unfold process_admin_password
  by_cases h : text = pw
  · by_cases h2 : isAdmin s uid <;> simp [h, h2]
  · simp [h]

theorem handle_unknown_message_orders (s : Store) (sess : ConvSession) (uid : Nat) :
    (handle_unknown_message s sess uid).1.orders = s.orders := by
  unfold handle_unknown_message
  by_cases h : isAdmin s uid
  · simp [h]
  · cases hu : findUser s uid with
    | none => simp [h, hu]
    | some u =>
      cases hf : sess.fsm with
      | some st => simp [h, hu, hf]
      | none =>
        by_cases h1 : u.is_registered = false
        · simp [h, hu, hf, h1]
        · by_cases h2 : strFalsy u.table_number <;> simp [h, hu, hf, h1, h2]

theorem process_order_store (catalog : List Song) (send : Nat → Bool) (s : Store)
    (sess : ConvSession) (uid sid now : Nat) :
    (process_order catalog send s sess uid sid now).store = s ∨
    ∃ u song, findUser s uid = some u ∧
      catalog.find? (fun t => t.id == sid) = some song ∧
      (process_order catalog send s sess uid sid now).store.orders = s.orders ++
        [{ id := s.nextOrderId, user_id := u.telegram_id, song_id := song.id,
           song_title := song.title, song_artist := song.artist,
           has_backing := song.has_backing, status := OrderStatus.pending,
           ordered_at := now, completed_at := none }] := by
  unfold process_order
  cases hu : findUser s uid with
  | none => simp [hu]
  | some u =>
    cases hsong : catalog.find? (fun t => t.id == sid) with
    | none => simp [hu, hsong]
    | some song => exact Or.inr ⟨u, song, rfl, rfl, by simp [hu, hsong]⟩

theorem handle_order_action_store (s : Store) (uid : Nat) (cmd : ResolveCmd) (now : Nat)
    (send : Nat → Bool) :
    (handle_order_action s uid cmd now send).1 = s ∨
    ∃ o, findOrder s cmd.orderId = some o ∧ o.status = OrderStatus.pending ∧
      (handle_order_action s uid cmd now send).1.orders =
        updateFirstBy (fun x => x.id == cmd.orderId)
          (fun x => { x with status := cmd.outcome, completed_at := some now }) s.orders := by
  unfold handle_order_action
  by_cases h : isAdmin s uid = false
  · simp [h]
  · cases ho : findOrder s cmd.orderId with
    | none => simp [h, ho]
    | some o =>
      by_cases hst : o.status = OrderStatus.pending
      · exact Or.inr ⟨o, rfl, hst, by simp [h, ho, hst]⟩
      · simp [h, ho, hst]

/-- The `completed_at` / `status` invariant of one order row. -/
def orderInv (o : Order) : Prop :=
  o.completed_at ≠ none ↔ o.status ≠ OrderStatus.pending

/-- The outcome of a resolve command is never pending. -/
theorem outcome_not_pending (cmd : ResolveCmd) : cmd.outcome ≠ OrderStatus.pending := by
  cases cmd <;> simp [ResolveCmd.outcome]

theorem outcome_terminal (cmd : ResolveCmd) :
    cmd.outcome = OrderStatus.completed ∨ cmd.outcome = OrderStatus.cancelled := by
  cases cmd <;> simp [ResolveCmd.outcome]

theorem step_preserves_orderInv {s s2 : Store} (hstep : Step s s2)
    (h : ∀ o ∈ s.orders, orderInv o) : ∀ o ∈ s2.orders, orderInv o := by
  cases hstep with
  | start s sess uid uname => rw [start_command_orders]; exact h
  | name s sess uid text => rw [process_name_orders]; exact h
  | table s sess uid text now => rw [process_table_orders]; exact h
  | reset s sess uid => rw [reset_core_orders]; exact h
  | expiry s sess u now => rw [check_registration_expiry_orders]; exact h
  | adminPw s sess uid text pw => rw [process_admin_password_orders]; exact h
  | unknown s sess uid => rw [handle_unknown_message_orders]; exact h
  | order catalog send s sess uid sid now =>
    rcases process_order_store catalog send s sess uid sid now with heq | ⟨u, song, _, _, heq⟩
    · rw [heq]; exact h
    · rw [heq]
      intro o ho
      rcases List.mem_append.mp ho with ho | ho
      · exact h o ho
      · rcases List.mem_singleton.mp ho with rfl
        simp [orderInv]
  | resolve s uid cmd now send =>
    rcases handle_order_action_store s uid cmd now send with heq | ⟨o, _, _, heq⟩
    · rw [heq]; exact h
    · rw [heq]
      intro x hx
      rcases mem_updateFirstBy _ _ s.orders x hx with hx | ⟨y, hy, _, rfl⟩
      · exact h x hx
      · simp [orderInv, outcome_not_pending cmd]

theorem step_statusEvolves {s s2 : Store} (hstep : Step s s2) :
    List.Forall₂ statusEvolves s.orders (s2.orders.take s.orders.length) := by
  have refl2 : List.Forall₂ statusEvolves s.orders s.orders :=
    List.forall₂_same.mpr fun x _ => Or.inl rfl
  cases hstep with
  | start s sess uid uname => rw [start_command_orders, List.take_length]; exact refl2
  | name s sess uid text => rw [process_name_orders, List.take_length]; exact refl2
  | table s sess uid text now => rw [process_table_orders, List.take_length]; exact refl2
  | reset s sess uid => rw [reset_core_orders, List.take_length]; exact refl2
  | expiry s sess u now => rw [check_registration_expiry_orders, List.take_length]; exact refl2
  | adminPw s sess uid text pw =>
    rw [process_admin_password_orders, List.take_length]; exact refl2
  | unknown s sess uid => rw [handle_unknown_message_orders, List.take_length]; exact refl2
  | order catalog send s sess uid sid now =>
    rcases process_order_store catalog send s sess uid sid now with heq | ⟨u, song, _, _, heq⟩
    · rw [heq, List.take_length]; exact refl2
    · rw [heq, List.take_left]; exact refl2
  | resolve s uid cmd now send =>
    rcases handle_order_action_store s uid cmd now send with heq | ⟨o, ho, hst, heq⟩
    · rw [heq, List.take_length]; exact refl2
    · rw [heq, show s.orders.length = (updateFirstBy (fun x => x.id == cmd.orderId)
          (fun x => { x with status := cmd.outcome, completed_at := some now })
          s.orders).length from (updateFirstBy_length _ _ s.orders).symm,
        List.take_length]
      refine forall₂_updateFirstBy statusEvolves _ _ (fun x => Or.inl rfl) s.orders ?_
      intro x hx
      have hxo : x = o := by
        have := ho
        unfold findOrder at this
        rw [this] at hx
        exact (Option.some_inj.mp hx).symm
      subst hxo
      exact Or.inr ⟨hst, by simpa using outcome_terminal cmd⟩

theorem insertById_pairwise (acc : List Song) (song : Song)
    (h : List.Pairwise (fun a b => a.id ≠ b.id) acc) :
    List.Pairwise (fun a b => a.id ≠ b.id) (insertById acc song) := by
  unfold insertById
  by_cases hmem : acc.any (fun t => t.id == song.id) = true
  · rw [if_pos hmem, List.pairwise_map]
    refine h.imp ?_
    intro a b hab
    by_cases ha : a.id == song.id <;> by_cases hb : b.id == song.id <;>
      simp_all
  · rw [if_neg hmem, List.pairwise_append]
    refine ⟨h, List.pairwise_singleton _ _, ?_⟩
    intro a ha b hb
    rcases List.mem_singleton.mp hb with rfl
    intro hab
    exact hmem (List.any_eq_true.mpr ⟨a, ha, by simp [hab]⟩)

theorem dedupById_pairwise_aux (l acc : List Song)
    (h : List.Pairwise (fun a b => a.id ≠ b.id) acc) :
    List.Pairwise (fun a b => a.id ≠ b.id) (l.foldl insertById acc) := by
  induction l generalizing acc with
  | nil => exact h
  | cons x xs ih => exact ih (insertById acc x) (insertById_pairwise acc x h)

theorem dedupById_pairwise (l : List Song) :
    List.Pairwise (fun a b => a.id ≠ b.id) (dedupById l) :=
  dedupById_pairwise_aux l [] List.Pairwise.nil

/-! ### Concrete fixtures used by counterexamples and witnesses -/

/-- A user who has completed registration: name and table set, and
`registered_at` at second 1000. -/
def alice : User :=
  { telegram_id := 7, username := some "al", display_name := some "Alice",
    table_number := some "12", is_registered := true, registered_at := some 1000 }

/-- A store holding just the registered user and no admins. -/
def aliceStore : Store := { users := [alice], admins := [], orders := [], nextOrderId := 1 }

/-- A store holding the registered user and two admins (ids 1 and 2). -/
def fanoutStore : Store := { users := [alice], admins := [1, 2], orders := [], nextOrderId := 1 }

/-- A one-song catalog snapshot. -/
def cat42 : List Song := [{ id := 42, title := "Song42", artist := "Artist42", has_backing := true }]

/-- A pending order by the registered user. -/
def pendingOrder : Order :=
  { id := 1, user_id := 7, song_id := 42, song_title := "Song42", song_artist := "Artist42",
    has_backing := true, status := OrderStatus.pending, ordered_at := 0, completed_at := none }

/-- A store with one admin (id 9) and one pending order. -/
def resolveStore : Store :=
  { users := [alice], admins := [9], orders := [pendingOrder], nextOrderId := 2 }

/-- A delivery function for which every send succeeds. -/
def sendOk : Nat → Bool := fun _ => true

/-- A delivery function that fails exactly for admin 1. -/
def failAdmin1 : Nat → Bool := fun a => a != 1

/-! ### C1: admin notification fan-out -/

/-- C1, counterexample: with admins 1 and 2 and delivery to admin 1
failing, the fan-out only attempts admin 1 — admin 2 is never attempted,
refuting the claim that a delivery failure to one admin does not prevent
delivery attempts to the remaining admins.  The enclosing order
placement still succeeds and the order row is persisted. -/
theorem notify_admins_abort_cex :
    (2 : Nat) ∈ fanoutStore.admins ∧
    (process_order cat42 failAdmin1 fanoutStore ConvSession.clear 7 42 5).attempted = [1] ∧
    ¬ (2 : Nat) ∈ (process_order cat42 failAdmin1 fanoutStore ConvSession.clear 7 42 5).attempted ∧
    (process_order cat42 failAdmin1 fanoutStore ConvSession.clear 7 42 5).replies
      = [Reply.orderSent] ∧
    (process_order cat42 failAdmin1 fanoutStore ConvSession.clear 7 42 5).store.orders
      = [{ pendingOrder with ordered_at := 5 }] := by
  decide

/-- C1 (amended): delivery is attempted to the admins in store order
only up to and including the first failed send — a failure aborts the
attempts to the remaining admins; with no failures every admin is
attempted.  The failure is swallowed: the enclosing order placement
does not depend on the delivery outcomes — the persisted store and the
user-facing replies are identical for any two delivery functions. -/
theorem notify_admins_best_effort (pre post : List Nat) (a : Nat) (send send2 : Nat → Bool)
    (catalog : List Song) (s : Store) (sess : ConvSession) (uid sid now : Nat)
    (hpre : ∀ b ∈ pre, send b = true) (ha : send a = false) :
    notify_admins (pre ++ a :: post) send = pre ++ [a] ∧
    (∀ admins : List Nat, (∀ b ∈ admins, send b = true) →
        notify_admins admins send = admins) ∧
    (process_order catalog send s sess uid sid now).store =
      (process_order catalog send2 s sess uid sid now).store ∧
    (process_order catalog send s sess uid sid now).replies =
      (process_order catalog send2 s sess uid sid now).replies := by
  refine ⟨?_, ?_, ?_, ?_⟩
  · induction pre with
    | nil => simp [notify_admins, ha]
    | cons x xs ih =>
      have hx : send x = true := hpre x (List.mem_cons_self x xs)
      show (if send x = true then
          x :: notify_admins (xs ++ a :: post) send else [x]) = x :: (xs ++ [a])
      rw [if_pos hx, ih (fun b hb => hpre b (List.mem_cons_of_mem x hb))]
  · intro admins hall
    induction admins with
    | nil => rfl
    | cons x xs ih =>
      have hx : send x = true := hall x (List.mem_cons_self x xs)
      show (if send x = true then x :: notify_admins xs send else [x]) = x :: xs
      rw [if_pos hx, ih (fun b hb => hall b (List.mem_cons_of_mem x hb))]
  · unfold process_order
    cases hu : findUser s uid <;> cases hs : catalog.find? (fun t => t.id == sid) <;>
      simp [hu, hs]
  · unfold process_order
    cases hu : findUser s uid <;> cases hs : catalog.find? (fun t => t.id == sid) <;>
      simp [hu, hs]

/-- C1, witness for the amended theorem at a concrete input. -/
theorem notify_admins_best_effort_witness :
    notify_admins ([2] ++ 1 :: [3]) failAdmin1 = [2] ++ [1] ∧
    (∀ admins : List Nat, (∀ b ∈ admins, failAdmin1 b = true) →
        notify_admins admins failAdmin1 = admins) ∧
    (process_order cat42 failAdmin1 fanoutStore ConvSession.clear 7 42 5).store =
      (process_order cat42 sendOk fanoutStore ConvSession.clear 7 42 5).store ∧
    (process_order cat42 failAdmin1 fanoutStore ConvSession.clear 7 42 5).replies =
      (process_order cat42 sendOk fanoutStore ConvSession.clear 7 42 5).replies :=
  notify_admins_best_effort [2] [3] 1 failAdmin1 sendOk cat42 fanoutStore ConvSession.clear
    7 42 5 (by decide) (by decide)

/-! ### C2: resolve command semantics and idempotence -/

/-- C2: `handle_order_action` on `/complete_id` or `/cancel_id`:
a non-admin actor gets Forbidden and the store is unchanged; an unknown
order id gets NotFound with no write; an order no longer pending gets
AlreadyResolved reporting its current status with no write; a pending
order gets the requested outcome and `completed_at = now`, the owner is
notified best-effort (a failed send only adds a warning), and resolving
again afterwards yields AlreadyResolved with the store — hence status
and `completed_at` — unchanged. -/
theorem handle_order_action_spec (s : Store) (uid : Nat) (cmd : ResolveCmd)
    (now now2 : Nat) (send send2 : Nat → Bool) :
    (isAdmin s uid = false →
      handle_order_action s uid cmd now send = (s, [Reply.forbiddenAdminsOnly])) ∧
    (isAdmin s uid = true → findOrder s cmd.orderId = none →
      handle_order_action s uid cmd now send = (s, [Reply.orderNotFound cmd.orderId])) ∧
    (∀ o, isAdmin s uid = true → findOrder s cmd.orderId = some o →
      o.status ≠ OrderStatus.pending →
      handle_order_action s uid cmd now send
        = (s, [Reply.alreadyResolved cmd.orderId o.status])) ∧
    (∀ o, isAdmin s uid = true → findOrder s cmd.orderId = some o →
      o.status = OrderStatus.pending →
      findOrder (handle_order_action s uid cmd now send).1 cmd.orderId
        = some { o with status := cmd.outcome, completed_at := some now } ∧
      (handle_order_action s uid cmd now send).2
        = [Reply.resolvedOk cmd.orderId cmd.outcome]
            ++ (if send o.user_id then [] else [Reply.notifyUserFailed]) ∧
      handle_order_action (handle_order_action s uid cmd now send).1 uid cmd now2 send2
        = ((handle_order_action s uid cmd now send).1,
           [Reply.alreadyResolved cmd.orderId cmd.outcome])) := by
  have halready : ∀ (s2 : Store) (o2 : Order) (n2 : Nat) (sd2 : Nat → Bool),
      isAdmin s2 uid = true → findOrder s2 cmd.orderId = some o2 →
      o2.status ≠ OrderStatus.pending →
      handle_order_action s2 uid cmd n2 sd2
        = (s2, [Reply.alreadyResolved cmd.orderId o2.status]) := by
    intro s2 o2 n2 sd2 h2 ho2 hst2
    simp [handle_order_action, h2, ho2, hst2]
  refine ⟨?_, ?_, ?_, ?_⟩
  · intro h; simp [handle_order_action, h]
  · intro h ho; simp [handle_order_action, h, ho]
  · intro o h ho hst; exact halready s o now send h ho hst
  · intro o h ho hst
    have hres : (handle_order_action s uid cmd now send).1 =
        { s with orders := (updateFirstBy (fun x => x.id == cmd.orderId)
          (fun x => { x with status := cmd.outcome, completed_at := some now }) s.orders) } := by
      simp [handle_order_action, h, ho, hst]
    have hfind : findOrder (handle_order_action s uid cmd now send).1 cmd.orderId
        = some { o with status := cmd.outcome, completed_at := some now } := by
      rw [hres]
      show List.find? (fun x => x.id == cmd.orderId)
          (updateFirstBy (fun x => x.id == cmd.orderId)
            (fun x => { x with status := cmd.outcome, completed_at := some now })
            s.orders) = _
      rw [findOrder_update s.orders cmd.orderId cmd.outcome now]
      unfold findOrder at ho
      rw [ho]
      rfl
    refine ⟨hfind, by simp [handle_order_action, h, ho, hst], ?_⟩
    have hadm2 : isAdmin (handle_order_action s uid cmd now send).1 uid = true := by
      rw [hres]; exact h
    have := halready (handle_order_action s uid cmd now send).1
      { o with status := cmd.outcome, completed_at := some now } now2 send2 hadm2 hfind
      (by simpa using outcome_not_pending cmd)
    simpa using this

/-- C2, witness: resolving the concrete pending order as the concrete
admin, then resolving it again. -/
theorem handle_order_action_spec_witness :
    findOrder (handle_order_action resolveStore 9 (ResolveCmd.complete 1) 5 sendOk).1 1
      = some { pendingOrder with status := OrderStatus.completed, completed_at := some 5 } ∧
    (handle_order_action resolveStore 9 (ResolveCmd.complete 1) 5 sendOk).2
      = [Reply.resolvedOk 1 OrderStatus.completed]
          ++ (if sendOk pendingOrder.user_id then [] else [Reply.notifyUserFailed]) ∧
    handle_order_action (handle_order_action resolveStore 9 (ResolveCmd.complete 1) 5 sendOk).1
        9 (ResolveCmd.complete 1) 6 sendOk
      = ((handle_order_action resolveStore 9 (ResolveCmd.complete 1) 5 sendOk).1,
         [Reply.alreadyResolved 1 OrderStatus.completed]) :=
  (handle_order_action_spec resolveStore 9 (ResolveCmd.complete 1) 5 6 sendOk sendOk).2.2.2
    pendingOrder (by decide) (by decide) (by decide)

/-! ### C3: /start for a fully registered user -/

/-- C3, counterexample: for the concrete fully registered user, /start
replies with nothing at all — in particular it does not route to the
search-mode menu. -/
theorem start_no_search_menu_cex :
    alice.is_registered = true ∧ strFalsy alice.table_number = false ∧
    findUser aliceStore 7 = some alice ∧ isAdmin aliceStore 7 = false ∧
    start_command aliceStore ConvSession.clear 7 none
      = (aliceStore, ConvSession.clear, []) := by
  decide

/-- C3 (amended): completing the table step sets `is_registered = true`
and `registered_at = now`, and a subsequent /start for such a fully
registered non-admin user (start performs no expiry check, so at any
time) never routes back through registration — but neither does it show
the search-mode menu: the handler replies nothing and changes nothing. -/
theorem start_after_registration (s : Store) (sess sess2 : ConvSession) (uid : Nat)
    (tbl : String) (now : Nat) (u : User) (uname : Option String)
    (hadmin : isAdmin s uid = false) (hu : findUser s uid = some u) (htbl : tbl ≠ "") :
    findUser (process_table s sess uid tbl now).1 uid
      = some { u with table_number := some tbl, is_registered := true,
                      registered_at := some now } ∧
    start_command (process_table s sess uid tbl now).1 sess2 uid uname
      = ((process_table s sess uid tbl now).1, sess2, []) := by
  have hres : (process_table s sess uid tbl now).1 = updateUser s uid (fun v =>
      { v with table_number := some tbl, is_registered := true,
               registered_at := some now }) := by
    simp [process_table, hu]
  have hfind : findUser (process_table s sess uid tbl now).1 uid
      = some { u with table_number := some tbl, is_registered := true,
                      registered_at := some now } := by
    rw [hres, findUser_after_table, hu]
    rfl
  refine ⟨hfind, ?_⟩
  have hadmin2 : isAdmin (process_table s sess uid tbl now).1 uid = false := by
    rw [hres, isAdmin_updateUser]
    exact hadmin
  simp [start_command, hadmin2, hfind, check_registration_state, strFalsy,
    String.isEmpty_iff, htbl]

/-- C3, witness for the amended theorem at a concrete input. -/
theorem start_after_registration_witness :
    findUser (process_table aliceStore ConvSession.clear 7 "5" 2000).1 7
      = some { alice with table_number := some "5", is_registered := true,
                          registered_at := some 2000 } ∧
    start_command (process_table aliceStore ConvSession.clear 7 "5" 2000).1
        ConvSession.clear 7 none
      = ((process_table aliceStore ConvSession.clear 7 "5" 2000).1, ConvSession.clear, []) :=
  start_after_registration aliceStore ConvSession.clear ConvSession.clear 7 "5" 2000 alice
    none (by decide) (by decide) (by decide)

/-! ### C4: registration expiry -/

/-- A do-nothing gated handler, used to witness that the registration
guard refuses to run the wrapped handler on expiry. -/
def idCore : Store → ConvSession → Store × ConvSession × List Reply :=
  fun s sess => (s, sess, [])

/-- C4, counterexample: for the concrete user registered at second 1000
evaluated at second 58601 (more than 16 hours later), the expiry check
leaves the session in its initial no-state — NOT in the awaiting-name
state the claim requires; moreover the inbound event /start never runs
the expiry check at all: it clears nothing for this expired user. -/
theorem expiry_not_awaiting_name_cex :
    alice.registered_at = some 1000 ∧ 58601 > 1000 + EXPIRY_SECONDS ∧
    (check_registration_expiry aliceStore ConvSession.clear alice 58601).2.1.fsm
      ≠ some FsmState.waiting_for_name ∧
    (check_registration_expiry aliceStore ConvSession.clear alice 58601).2.1.fsm = none ∧
    start_command aliceStore ConvSession.clear 7 none
      = (aliceStore, ConvSession.clear, []) := by
  decide

/-- C4 (amended): when a registration-gated event arrives from a
non-admin registered user whose `registered_at` lies more than 16 hours
in the past, the guard clears `display_name`, `table_number`,
`is_registered` and `registered_at`, resets the conversation session to
its initial (empty) state, reports expiry, and refuses to run the gated
handler; it does not set the awaiting-name state (the user is told to
use /start).  A second evaluation in immediate succession observes the
cleared `registered_at` and performs no additional change. -/
theorem registration_expiry_guard (s : Store) (sess : ConvSession) (u : User)
    (now t : Nat) (core : Store → ConvSession → Store × ConvSession × List Reply)
    (hu : findUser s u.telegram_id = some u) (ht : u.registered_at = some t)
    (hexp : now > t + EXPIRY_SECONDS) (hadmin : isAdmin s u.telegram_id = false)
    (hreg : u.is_registered = true) :
    (check_registration_expiry s sess u now).2.2.2 = false ∧
    (check_registration_expiry s sess u now).2.1 = ConvSession.clear ∧
    (check_registration_expiry s sess u now).2.2.1 = [Reply.registrationExpired] ∧
    findUser (check_registration_expiry s sess u now).1 u.telegram_id
      = some { u with is_registered := false, display_name := none,
                      table_number := none, registered_at := none } ∧
    (∀ u2, findUser (check_registration_expiry s sess u now).1 u.telegram_id = some u2 →
      check_registration_expiry (check_registration_expiry s sess u now).1
          (check_registration_expiry s sess u now).2.1 u2 now
        = ((check_registration_expiry s sess u now).1,
           (check_registration_expiry s sess u now).2.1, [], true)) ∧
    require_registration core s sess u.telegram_id now
      = ((check_registration_expiry s sess u now).1, ConvSession.clear,
         [Reply.registrationExpired]) := by
  have hr : check_registration_expiry s sess u now
      = (updateUser s u.telegram_id (fun v =>
          { v with is_registered := false, display_name := none,
                   table_number := none, registered_at := none }),
         ConvSession.clear, [Reply.registrationExpired], false) := by
    simp [check_registration_expiry, ht, hexp]
  have hfind : findUser (check_registration_expiry s sess u now).1 u.telegram_id
      = some { u with is_registered := false, display_name := none,
                      table_number := none, registered_at := none } := by
    rw [hr]
    show findUser (updateUser s u.telegram_id _) u.telegram_id = _
    rw [findUser_after_expiry, hu]
    rfl
  refine ⟨by rw [hr], by rw [hr], by rw [hr], hfind, ?_, ?_⟩
  · intro u2 h2
    rw [hfind] at h2
    rcases Option.some_inj.mp h2 with rfl
    rfl
  · simp only [require_registration, hadmin, Bool.false_eq_true, if_false, hu, hreg,
      Bool.true_eq_false, hr]

/-- C4, witness for the amended theorem at the concrete expired input. -/
theorem registration_expiry_guard_witness :
    (check_registration_expiry aliceStore ConvSession.clear alice 58601).2.2.2 = false ∧
    (check_registration_expiry aliceStore ConvSession.clear alice 58601).2.1
      = ConvSession.clear ∧
    (check_registration_expiry aliceStore ConvSession.clear alice 58601).2.2.1
      = [Reply.registrationExpired] ∧
    findUser (check_registration_expiry aliceStore ConvSession.clear alice 58601).1
        alice.telegram_id
      = some { alice with is_registered := false, display_name := none,
                          table_number := none, registered_at := none } ∧
    (∀ u2, findUser (check_registration_expiry aliceStore ConvSession.clear alice 58601).1
        alice.telegram_id = some u2 →
      check_registration_expiry
          (check_registration_expiry aliceStore ConvSession.clear alice 58601).1
          (check_registration_expiry aliceStore ConvSession.clear alice 58601).2.1 u2 58601
        = ((check_registration_expiry aliceStore ConvSession.clear alice 58601).1,
           (check_registration_expiry aliceStore ConvSession.clear alice 58601).2.1,
           [], true)) ∧
    require_registration idCore aliceStore ConvSession.clear alice.telegram_id 58601
      = ((check_registration_expiry aliceStore ConvSession.clear alice 58601).1,
         ConvSession.clear, [Reply.registrationExpired]) :=
  registration_expiry_guard aliceStore ConvSession.clear alice 58601 1000 idCore
    (by decide) (by decide) (by decide) (by decide) (by decide)

/-! ### C5: order status and completed_at invariants -/

/-- C5: in every reachable store, an order's `completed_at` is set iff
its status is not `pending`; and any single modelled operation evolves
each pre-existing order row either not at all or from `pending` into
`completed` or `cancelled` — no operation transitions an order out of a
terminal state. -/
theorem order_lifecycle_invariant :
    (∀ s, Reach s → ∀ o ∈ s.orders,
        o.completed_at ≠ none ↔ o.status ≠ OrderStatus.pending) ∧
    (∀ s s2, Step s s2 →
        List.Forall₂ statusEvolves s.orders (s2.orders.take s.orders.length)) := by
  constructor
  · intro s hs
    induction hs with
    | init => intro o ho; cases ho
    | step s s2 hr hstep ih => exact step_preserves_orderInv hstep ih
  · intro s s2 hstep
    exact step_statusEvolves hstep

/-- C5, witness: the invariant at the reachable initial store, and the
evolution relation across a concrete resolve step on a pending order. -/
theorem order_lifecycle_invariant_witness :
    (∀ o ∈ initStore.orders, o.completed_at ≠ none ↔ o.status ≠ OrderStatus.pending) ∧
    List.Forall₂ statusEvolves resolveStore.orders
      (((handle_order_action resolveStore 9 (ResolveCmd.complete 1) 5 sendOk).1.orders).take
        resolveStore.orders.length) :=
  ⟨order_lifecycle_invariant.1 initStore Reach.init,
   order_lifecycle_invariant.2 resolveStore _
     (Step.resolve resolveStore 9 (ResolveCmd.complete 1) 5 sendOk)⟩

/-! ### C6: order placement -/

/-- C6: `process_order` on an order-confirmation event: if the
requesting user row or the referenced catalog item is absent the
operation fails and no order row is written; otherwise exactly one new
order is appended with status `pending`, `ordered_at = now` and the
item's title, artist and accompaniment flag snapshotted into the row,
and the admin fan-out is triggered with a rendered message containing
the `/complete_<id>` and `/cancel_<id>` control references. -/
theorem process_order_spec (catalog : List Song) (send : Nat → Bool) (s : Store)
    (sess : ConvSession) (uid sid now : Nat) :
    ((findUser s uid = none ∨ catalog.find? (fun t => t.id == sid) = none) →
      (process_order catalog send s sess uid sid now).store = s ∧
      (process_order catalog send s sess uid sid now).replies = [Reply.orderError]) ∧
    (∀ u song, findUser s uid = some u →
      catalog.find? (fun t => t.id == sid) = some song →
      (process_order catalog send s sess uid sid now).store.orders
        = s.orders ++ [{ id := s.nextOrderId, user_id := u.telegram_id, song_id := song.id,
                         song_title := song.title, song_artist := song.artist,
                         has_backing := song.has_backing, status := OrderStatus.pending,
                         ordered_at := now, completed_at := none }] ∧
      (process_order catalog send s sess uid sid now).replies = [Reply.orderSent] ∧
      ∃ a b c : String, (process_order catalog send s sess uid sid now).adminMessage
        = some (a ++ ("/complete_" ++ toString s.nextOrderId)
            ++ (b ++ ("/cancel_" ++ toString s.nextOrderId) ++ c))) := by
  constructor
  · intro h
    rcases h with h | h
    · constructor <;> simp [process_order, h]
    · cases hu : findUser s uid <;> (constructor <;> simp [process_order, hu, h])
  · intro u song hu hsong
    refine ⟨by simp [process_order, hu, hsong], by simp [process_order, hu, hsong], ?_⟩
    refine ⟨renderOrderInfo song u
        { id := s.nextOrderId, user_id := u.telegram_id, song_id := song.id,
          song_title := song.title, song_artist := song.artist,
          has_backing := song.has_backing, status := OrderStatus.pending,
          ordered_at := now, completed_at := none } ++ "\n\nДействия с заказом:\n",
      " - отметить как исполненный\n", " - отменить заказ", ?_⟩
    simp [process_order, hu, hsong, adminFullMessage, String.append_assoc]
    rw [← String.append_assoc "\n\nДействия с заказом:\n" "/complete_",
        ← String.append_assoc " - отметить как исполненный\n" "/cancel_"]
    simp

/-- C6, witness: placing the concrete order. -/
theorem process_order_spec_witness :
    (process_order cat42 sendOk fanoutStore ConvSession.clear 7 42 5).store.orders
      = fanoutStore.orders
        ++ [{ id := fanoutStore.nextOrderId, user_id := alice.telegram_id, song_id := 42,
              song_title := "Song42", song_artist := "Artist42", has_backing := true,
              status := OrderStatus.pending, ordered_at := 5, completed_at := none }] ∧
    (process_order cat42 sendOk fanoutStore ConvSession.clear 7 42 5).replies
      = [Reply.orderSent] ∧
    ∃ a b c : String,
      (process_order cat42 sendOk fanoutStore ConvSession.clear 7 42 5).adminMessage
        = some (a ++ ("/complete_" ++ toString fanoutStore.nextOrderId)
            ++ (b ++ ("/cancel_" ++ toString fanoutStore.nextOrderId) ++ c)) :=
  (process_order_spec cat42 sendOk fanoutStore ConvSession.clear 7 42 5).2
    alice { id := 42, title := "Song42", artist := "Artist42", has_backing := true }
    (by decide) (by decide)

/-! ### C7: result pagination -/

/-- C7: `create_song_buttons` renders exactly the ten-item window at
index `10 * page` (fewer on the last page), shows the previous button
iff `page > 0` and the next button iff `10 * (page + 1)` is below the
result count; for 25 results, page 0 shows the first ten items with
next only, page 2 shows items 21 to 25 with previous only. -/
theorem create_song_buttons_spec (songs : List Song) (page : Nat) :
    (create_song_buttons songs page).items = (songs.drop (10 * page)).take 10 ∧
    ((create_song_buttons songs page).hasPrev = true ↔ 0 < page) ∧
    ((create_song_buttons songs page).hasNext = true ↔ 10 * (page + 1) < songs.length) ∧
    (songs.length = 25 →
      (create_song_buttons songs 0).items = songs.take 10 ∧
      (create_song_buttons songs 0).hasPrev = false ∧
      (create_song_buttons songs 0).hasNext = true ∧
      (create_song_buttons songs 2).items = songs.drop 20 ∧
      (create_song_buttons songs 2).hasPrev = true ∧
      (create_song_buttons songs 2).hasNext = false) := by
  refine ⟨?_, ?_, ?_, ?_⟩
  · simp [create_song_buttons, Nat.mul_comm]
  · simp [create_song_buttons]
  · constructor
    · intro h
      simp [create_song_buttons] at h
      omega
    · intro h
      simp [create_song_buttons]
      omega
  · intro h25
    refine ⟨?_, ?_, ?_, ?_, ?_, ?_⟩
    · simp [create_song_buttons]
    · simp [create_song_buttons]
    · simp [create_song_buttons, h25]
    · simp only [create_song_buttons]
      rw [List.take_of_length_le]
      rw [List.length_drop, h25]
      omega
    · simp [create_song_buttons]
    · simp [create_song_buttons, h25]

/-- A 25-song result list. -/
def songs25 : List Song := (List.range 25).map (fun i => { id := i, title := "t", artist := "a" })

/-- C7, witness: the 25-result instance of the pagination theorem. -/
theorem create_song_buttons_spec_witness :
    (create_song_buttons songs25 0).items = songs25.take 10 ∧
    (create_song_buttons songs25 0).hasPrev = false ∧
    (create_song_buttons songs25 0).hasNext = true ∧
    (create_song_buttons songs25 2).items = songs25.drop 20 ∧
    (create_song_buttons songs25 2).hasPrev = true ∧
    (create_song_buttons songs25 2).hasNext = false :=
  (create_song_buttons_spec songs25 0).2.2.2 (by decide)

/-! ### C8: /reset and the following registration sequence -/

/-- C8, counterexample: for the concrete registered user, /reset leaves
`registered_at` set (the handler clears only `display_name`,
`table_number` and `is_registered`), refuting the claim that /reset
clears `registered_at`. -/
theorem reset_keeps_registered_at_cex :
    (findUser (reset_command aliceStore ConvSession.clear 7 2000).1 7).map User.registered_at
      = some (some 1000) ∧
    (findUser (reset_command aliceStore ConvSession.clear 7 2000).1 7).map User.is_registered
      = some false := by
  decide

/-- C8 (amended): for a registered non-admin user within the expiry
window, /reset clears `display_name`, `table_number` and
`is_registered` and clears the conversation session — but leaves
`registered_at` unchanged; an immediately following /start re-enters
registration at the name prompt, a name entry prompts for the table,
and the table entry shows the search-mode menu, completing
registration. -/
theorem reset_then_start_sequence (s : Store) (sess : ConvSession) (uid : Nat) (u : User)
    (now now2 : Nat) (uname : Option String) (nm tbl : String)
    (hadmin : isAdmin s uid = false) (hu : findUser s uid = some u)
    (hreg : u.is_registered = true)
    (hfresh : u.registered_at = none ∨
      ∃ t, u.registered_at = some t ∧ now ≤ t + EXPIRY_SECONDS) :
    ∃ s1 s2 s3 r1 r2 r3,
      reset_command s sess uid now = (s1, ConvSession.clear, [Reply.resetDone]) ∧
      findUser s1 uid = some { u with display_name := none, table_number := none,
                                      is_registered := false } ∧
      start_command s1 ConvSession.clear uid uname
        = (s1, { fsm := some FsmState.waiting_for_name, search_results := [] }, [r1]) ∧
      Reply.kind r1 = PromptKind.namePrompt ∧
      process_name s1 { fsm := some FsmState.waiting_for_name, search_results := [] } uid nm
        = (s2, { fsm := some FsmState.waiting_for_table, search_results := [] }, [r2]) ∧
      Reply.kind r2 = PromptKind.tablePrompt ∧
      process_table s2 { fsm := some FsmState.waiting_for_table, search_results := [] }
          uid tbl now2
        = (s3, { fsm := some FsmState.ready_to_search, search_results := [] }, [r3]) ∧
      Reply.kind r3 = PromptKind.searchMenu ∧
      findUser s3 uid = some { u with display_name := some nm, table_number := some tbl,
                                      is_registered := true, registered_at := some now2 } := by
  have hexp : check_registration_expiry s sess u now = (s, sess, [], true) := by
    rcases hfresh with h | ⟨t, ht, hle⟩
    · simp [check_registration_expiry, h]
    · have hnot : ¬ (now > t + EXPIRY_SECONDS) := by omega
      simp [check_registration_expiry, ht, hnot]
  have h1 : reset_command s sess uid now
      = (updateUser s uid
           (fun v => { v with display_name := none, table_number := none,
                              is_registered := false }),
         ConvSession.clear, [Reply.resetDone]) := by
    unfold reset_command require_registration
    simp only [hadmin, Bool.false_eq_true, if_false, hu, hreg, Bool.true_eq_false, hexp]
    simp [reset_core, hadmin, hu]
  set s1 := updateUser s uid
      (fun v => { v with display_name := none, table_number := none,
                         is_registered := false }) with hs1
  have hfind1 : findUser s1 uid
      = some { u with display_name := none, table_number := none, is_registered := false } := by
    rw [hs1, findUser_after_reset, hu]
    rfl
  have hadmin1 : isAdmin s1 uid = false := by rw [hs1, isAdmin_updateUser]; exact hadmin
  have h2 : start_command s1 ConvSession.clear uid uname
      = (s1, { fsm := some FsmState.waiting_for_name, search_results := [] },
         [Reply.repairNamePrompt]) := by
    simp [start_command, hadmin1, hfind1, check_registration_state, ConvSession.clear]
  have h3 : process_name s1 { fsm := some FsmState.waiting_for_name, search_results := [] }
        uid nm
      = (updateUser s1 uid (fun v => { v with display_name := some nm, is_registered := true }),
         { fsm := some FsmState.waiting_for_table, search_results := [] },
         [Reply.thanksTablePrompt nm]) := by
    simp [process_name, hfind1]
  set s2 := updateUser s1 uid
      (fun v => { v with display_name := some nm, is_registered := true }) with hs2
  have hfind2 : findUser s2 uid
      = some { u with display_name := some nm, table_number := none, is_registered := true } := by
    rw [hs2, findUser_after_name, hfind1]
    rfl
  have h4 : process_table s2 { fsm := some FsmState.waiting_for_table, search_results := [] }
        uid tbl now2
      = (updateUser s2 uid
           (fun v => { v with table_number := some tbl, is_registered := true,
                              registered_at := some now2 }),
         { fsm := some FsmState.ready_to_search, search_results := [] },
         [Reply.registeredSearchMenu]) := by
    simp [process_table, hfind2]
  set s3 := updateUser s2 uid
      (fun v => { v with table_number := some tbl, is_registered := true,
                         registered_at := some now2 }) with hs3
  have hfind3 : findUser s3 uid
      = some { u with display_name := some nm, table_number := some tbl,
                      is_registered := true, registered_at := some now2 } := by
    rw [hs3, findUser_after_table, hfind2]
    rfl
  exact ⟨s1, s2, s3, Reply.repairNamePrompt, Reply.thanksTablePrompt nm,
    Reply.registeredSearchMenu, h1, hfind1, h2, rfl, h3, rfl, h4, rfl, hfind3⟩

/-- C8, witness: the reset-then-reregister sequence for the concrete
registered user. -/
theorem reset_then_start_sequence_witness :
    ∃ s1 s2 s3 r1 r2 r3,
      reset_command aliceStore ConvSession.clear 7 2000
        = (s1, ConvSession.clear, [Reply.resetDone]) ∧
      findUser s1 7 = some { alice with display_name := none, table_number := none,
                                        is_registered := false } ∧
      start_command s1 ConvSession.clear 7 none
        = (s1, { fsm := some FsmState.waiting_for_name, search_results := [] }, [r1]) ∧
      Reply.kind r1 = PromptKind.namePrompt ∧
      process_name s1 { fsm := some FsmState.waiting_for_name, search_results := [] } 7 "Bob"
        = (s2, { fsm := some FsmState.waiting_for_table, search_results := [] }, [r2]) ∧
      Reply.kind r2 = PromptKind.tablePrompt ∧
      process_table s2 { fsm := some FsmState.waiting_for_table, search_results := [] }
          7 "5" 9999
        = (s3, { fsm := some FsmState.ready_to_search, search_results := [] }, [r3]) ∧
      Reply.kind r3 = PromptKind.searchMenu ∧
      findUser s3 7 = some { alice with display_name := some "Bob", table_number := some "5",
                                        is_registered := true, registered_at := some 9999 } :=
  reset_then_start_sequence aliceStore ConvSession.clear 7 alice 2000 9999 none "Bob" "5"
    (by decide) (by decide) (by decide) (Or.inr ⟨1000, by decide, by decide⟩)

/-! ### C9: artist-search query expansion and deduplication -/

/-- C9, counterexample: the engine never queries the catalog with the
original input when it differs from its lower-cased form — for the
query "Pink Floyd" the variation list is exactly
["pink floyd", "floyd pink"], which does not contain "Pink Floyd". -/
theorem artist_search_not_original_cex :
    get_name_variations "Pink Floyd" = ["pink floyd", "floyd pink"] ∧
    ¬ "Pink Floyd" ∈ get_name_variations "Pink Floyd" := by
  decide

/-- C9 (amended): the artist search queries the catalog with the
lower-cased, trimmed input, with its reversed word order (for
multi-word inputs) and with every rotation of its words (for inputs of
more than two words), and the combined results are deduplicated by
catalog item id before being stored, so no two entries of the final
(and stored) result list share an id. -/
theorem artist_search_variations_dedup (searchByArtist : String → List Song) (text : String) :
    (pyStrip (pyLower text)) ∈ get_name_variations text ∧
    (1 < (pySplit (pyStrip (pyLower text))).length →
      String.intercalate " " (pySplit (pyStrip (pyLower text))).reverse
        ∈ get_name_variations text) ∧
    (∀ i, i < (pySplit (pyStrip (pyLower text))).length →
      2 < (pySplit (pyStrip (pyLower text))).length →
      String.intercalate " "
          ((pySplit (pyStrip (pyLower text))).drop i ++ (pySplit (pyStrip (pyLower text))).take i)
        ∈ get_name_variations text) ∧
    List.Pairwise (fun a b => a.id ≠ b.id) (process_artist_search searchByArtist text) ∧
    (∀ sess, process_artist_search searchByArtist text ≠ [] →
      (process_artist_search_handler searchByArtist sess text).1.search_results
        = process_artist_search searchByArtist text) := by
  refine ⟨?_, ?_, ?_, dedupById_pairwise _, ?_⟩
  · by_cases h1 : 1 < (pySplit (pyStrip (pyLower text))).length <;>
      by_cases h2 : 2 < (pySplit (pyStrip (pyLower text))).length <;>
      simp [get_name_variations, h1, h2, List.mem_dedup]
  · intro h1
    by_cases h2 : 2 < (pySplit (pyStrip (pyLower text))).length <;>
      simp [get_name_variations, h1, h2, List.mem_dedup]
  · intro i hi h2
    have h1 : 1 < (pySplit (pyStrip (pyLower text))).length := by omega
    simp only [get_name_variations, h1, h2, if_pos, List.mem_dedup]
    refine List.mem_append.mpr (Or.inr ?_)
    exact List.mem_map.mpr ⟨i, List.mem_range.mpr hi, rfl⟩
  · intro sess hne
    have : (process_artist_search searchByArtist text).isEmpty = false := by
      rw [List.isEmpty_eq_false]
      exact hne
    simp [process_artist_search_handler, this]

/-- A catalog client returning overlapping ids for different
variations of the query. -/
def dupSearcher : String → List Song := fun q =>
  if q = "a b c" then
    [{ id := 1, title := "t1", artist := "x" }, { id := 2, title := "t2", artist := "x" }]
  else [{ id := 1, title := "t1b", artist := "x" }]

/-- C9, witness for the amended theorem at a three-word query with an
overlapping-id searcher. -/
theorem artist_search_variations_dedup_witness :
    (pyStrip (pyLower "a b c")) ∈ get_name_variations "a b c" ∧
    String.intercalate " " (pySplit (pyStrip (pyLower "a b c"))).reverse
      ∈ get_name_variations "a b c" ∧
    String.intercalate " "
        ((pySplit (pyStrip (pyLower "a b c"))).drop 1 ++ (pySplit (pyStrip (pyLower "a b c"))).take 1)
      ∈ get_name_variations "a b c" ∧
    List.Pairwise (fun a b => a.id ≠ b.id) (process_artist_search dupSearcher "a b c") ∧
    (process_artist_search_handler dupSearcher ConvSession.clear "a b c").1.search_results
      = process_artist_search dupSearcher "a b c" := by
  obtain ⟨h1, h2, h3, h4, h5⟩ := artist_search_variations_dedup dupSearcher "a b c"
  exact ⟨h1, h2 (by decide), h3 1 (by decide) (by decide), h4,
    h5 ConvSession.clear (by decide)⟩

/-! ### C10: no expiry without registered_at -/

/-- C10: when `registered_at` is unset, the expiry check changes
nothing at all (no write, no session change, success); and the name
step sets `is_registered = true` without touching `registered_at`, so a
user between the name and table steps has `registered_at` unset and is
never expired — they stay registered until the table step sets
`registered_at`. -/
theorem expiry_noop_without_registered_at (s : Store) (sess : ConvSession) (u : User)
    (now : Nat) (h : u.registered_at = none)
    (s1 : Store) (sess1 : ConvSession) (uid : Nat) (nm : String) (u1 : User)
    (h1 : findUser s1 uid = some u1) :
    check_registration_expiry s sess u now = (s, sess, [], true) ∧
    findUser (process_name s1 sess1 uid nm).1 uid
      = some { u1 with display_name := some nm, is_registered := true } ∧
    ({ u1 with display_name := some nm, is_registered := true } : User).registered_at
      = u1.registered_at := by
  refine ⟨by simp [check_registration_expiry, h], ?_, rfl⟩
  have hres : (process_name s1 sess1 uid nm).1 = updateUser s1 uid (fun v =>
      { v with display_name := some nm, is_registered := true }) := by
    simp [process_name, h1]
  rw [hres, findUser_after_name, h1]
  rfl

/-- A user who entered a name but not yet a table: registered with
`registered_at` unset. -/
def bob : User := { telegram_id := 8, display_name := some "Bob", is_registered := true }

/-- A store holding just that mid-registration user. -/
def bobStore : Store := { users := [bob], admins := [], orders := [], nextOrderId := 1 }

/-- C10, witness at the concrete mid-registration user. -/
theorem expiry_noop_without_registered_at_witness :
    check_registration_expiry bobStore ConvSession.clear bob 999999
      = (bobStore, ConvSession.clear, [], true) ∧
    findUser (process_name bobStore ConvSession.clear 8 "Bobby").1 8
      = some { bob with display_name := some "Bobby", is_registered := true } ∧
    ({ bob with display_name := some "Bobby", is_registered := true } : User).registered_at
      = bob.registered_at :=
  expiry_noop_without_registered_at bobStore ConvSession.clear bob 999999 (by decide)
    bobStore ConvSession.clear 8 "Bobby" bob (by decide)

end Karaoke
